import Mathlib

set_option autoImplicit false

namespace Mqtt

/-- Integer codes for the MQTT v5 properties
(enum mqtt::property::code, properties.h lines 70-98). -/
inductive Code where
  | PAYLOAD_FORMAT_INDICATOR
  | MESSAGE_EXPIRY_INTERVAL
  | CONTENT_TYPE
  | RESPONSE_TOPIC
  | CORRELATION_DATA
  | SUBSCRIPTION_IDENTIFIER
  | SESSION_EXPIRY_INTERVAL
  | ASSIGNED_CLIENT_IDENTIFIER
  | SERVER_KEEP_ALIVE
  | AUTHENTICATION_METHOD
  | AUTHENTICATION_DATA
  | REQUEST_PROBLEM_INFORMATION
  | WILL_DELAY_INTERVAL
  | REQUEST_RESPONSE_INFORMATION
  | RESPONSE_INFORMATION
  | SERVER_REFERENCE
  | REASON_STRING
  | RECEIVE_MAXIMUM
  | TOPIC_ALIAS_MAXIMUM
  | TOPIC_ALIAS
  | MAXIMUM_QOS
  | RETAIN_AVAILABLE
  | USER_PROPERTY
  | MAXIMUM_PACKET_SIZE
  | WILDCARD_SUBSCRIPTION_AVAILABLE
  | SUBSCRIPTION_IDENTIFIERS_AVAILABLE
  | SHARED_SUBSCRIPTION_AVAILABLE
deriving DecidableEq

/-- Numeric value of each enumerator of mqtt::property::code
(properties.h lines 71-97). -/
def Code.val : Code → Nat
  | .PAYLOAD_FORMAT_INDICATOR => 1
  | .MESSAGE_EXPIRY_INTERVAL => 2
  | .CONTENT_TYPE => 3
  | .RESPONSE_TOPIC => 8
  | .CORRELATION_DATA => 9
  | .SUBSCRIPTION_IDENTIFIER => 11
  | .SESSION_EXPIRY_INTERVAL => 17
  | .ASSIGNED_CLIENT_IDENTIFIER => 18
  | .SERVER_KEEP_ALIVE => 19
  | .AUTHENTICATION_METHOD => 21
  | .AUTHENTICATION_DATA => 22
  | .REQUEST_PROBLEM_INFORMATION => 23
  | .WILL_DELAY_INTERVAL => 24
  | .REQUEST_RESPONSE_INFORMATION => 25
  | .RESPONSE_INFORMATION => 26
  | .SERVER_REFERENCE => 28
  | .REASON_STRING => 31
  | .RECEIVE_MAXIMUM => 33
  | .TOPIC_ALIAS_MAXIMUM => 34
  | .TOPIC_ALIAS => 35
  | .MAXIMUM_QOS => 36
  | .RETAIN_AVAILABLE => 37
  | .USER_PROPERTY => 38
  | .MAXIMUM_PACKET_SIZE => 39
  | .WILDCARD_SUBSCRIPTION_AVAILABLE => 40
  | .SUBSCRIPTION_IDENTIFIERS_AVAILABLE => 41
  | .SHARED_SUBSCRIPTION_AVAILABLE => 42

/-- Value-encoding kinds of MQTT v5 properties (spec section 3 ValueKind:
Byte, TwoByteInt, FourByteInt, VariableByteInt, BinaryData, Utf8String,
Utf8StringPair). -/
inductive ValueKind where
  | Byte
  | TwoByteInt
  | FourByteInt
  | VariableByteInt
  | BinaryData
  | Utf8String
  | Utf8StringPair
deriving DecidableEq

/-- Modelled from the spec: the fixed code-to-ValueKind mapping (spec section 3;
the C function MQTTProperty_getType that realizes it is in the Paho C library,
not under src). Each code has exactly one associated kind. -/
def kindOf : Code → ValueKind
  | .PAYLOAD_FORMAT_INDICATOR => .Byte
  | .MESSAGE_EXPIRY_INTERVAL => .FourByteInt
  | .CONTENT_TYPE => .Utf8String
  | .RESPONSE_TOPIC => .Utf8String
  | .CORRELATION_DATA => .BinaryData
  | .SUBSCRIPTION_IDENTIFIER => .VariableByteInt
  | .SESSION_EXPIRY_INTERVAL => .FourByteInt
  | .ASSIGNED_CLIENT_IDENTIFIER => .Utf8String
  | .SERVER_KEEP_ALIVE => .TwoByteInt
  | .AUTHENTICATION_METHOD => .Utf8String
  | .AUTHENTICATION_DATA => .BinaryData
  | .REQUEST_PROBLEM_INFORMATION => .Byte
  | .WILL_DELAY_INTERVAL => .FourByteInt
  | .REQUEST_RESPONSE_INFORMATION => .Byte
  | .RESPONSE_INFORMATION => .Utf8String
  | .SERVER_REFERENCE => .Utf8String
  | .REASON_STRING => .Utf8String
  | .RECEIVE_MAXIMUM => .TwoByteInt
  | .TOPIC_ALIAS_MAXIMUM => .TwoByteInt
  | .TOPIC_ALIAS => .TwoByteInt
  | .MAXIMUM_QOS => .Byte
  | .RETAIN_AVAILABLE => .Byte
  | .USER_PROPERTY => .Utf8StringPair
  | .MAXIMUM_PACKET_SIZE => .FourByteInt
  | .WILDCARD_SUBSCRIPTION_AVAILABLE => .Byte
  | .SUBSCRIPTION_IDENTIFIERS_AVAILABLE => .Byte
  | .SHARED_SUBSCRIPTION_AVAILABLE => .Byte

/-- True for the four integer-encoded kinds: those accepted by the numeric
property constructor (spec section 4.1). -/
def isIntKind : ValueKind → Bool
  | .Byte => true
  | .TwoByteInt => true
  | .FourByteInt => true
  | .VariableByteInt => true
  | .BinaryData => false
  | .Utf8String => false
  | .Utf8StringPair => false

/-- Length-prefixed string of the C struct MQTTLenString: a char pointer that
may be null, modelled as an Option, together with a length. -/
structure LenString where
  len : Nat
  data : Option String
deriving DecidableEq

/-- Default (zeroed) MQTTLenString: null pointer, zero length. -/
def LenString.nil : LenString := ⟨0, none⟩

/-- Value union of the C struct MQTTProperty: a byte, a two-byte integer, a
four-byte integer, or the pair of MQTTLenString fields named data and value.
The C union is modelled as a record; the claims below only ever read the
member that was stored, so overlapping storage is not observable here. -/
structure PropValue where
  byte : Nat
  integer2 : Nat
  integer4 : Nat
  data : LenString
  value : LenString
deriving DecidableEq

/-- Zeroed property value, as left by memset or by C zero-initialization. -/
def PropValue.zero : PropValue := ⟨0, 0, 0, LenString.nil, LenString.nil⟩

/-- A single MQTT v5 property (class mqtt::property wrapping the C struct
MQTTProperty: an identifier code plus the value union). -/
structure Property where
  identifier : Code
  value : PropValue
deriving DecidableEq

/-- Error kinds of the core: BadCast is mqtt::bad_cast (the spec's
BadValueType), IndexOutOfRange is std::out_of_range thrown by checked access,
PropertyNotFound and InvalidPropertyKind are the spec's lookup-failure and
construction-failure kinds (spec section 7). -/
inductive MqttError where
  | BadCast
  | IndexOutOfRange
  | PropertyNotFound
  | InvalidPropertyKind
deriving DecidableEq

/-- Gets the property type, i.e. its identifier code
(property::type, properties.h line 179). -/
def Property.type (p : Property) : Code := p.identifier

/-- Modelled from the spec: the fixed code-to-display-name table
property::TYPE_NAME (declared at properties.h line 101; its contents are in
properties.cpp, not under src). Per spec section 4.1 it is a fixed lookup
table; the display names here follow the enumerator names. -/
def typeNameTable : Code → String
  | .PAYLOAD_FORMAT_INDICATOR => "PAYLOAD_FORMAT_INDICATOR"
  | .MESSAGE_EXPIRY_INTERVAL => "MESSAGE_EXPIRY_INTERVAL"
  | .CONTENT_TYPE => "CONTENT_TYPE"
  | .RESPONSE_TOPIC => "RESPONSE_TOPIC"
  | .CORRELATION_DATA => "CORRELATION_DATA"
  | .SUBSCRIPTION_IDENTIFIER => "SUBSCRIPTION_IDENTIFIER"
  | .SESSION_EXPIRY_INTERVAL => "SESSION_EXPIRY_INTERVAL"
  | .ASSIGNED_CLIENT_IDENTIFIER => "ASSIGNED_CLIENT_IDENTIFIER"
  | .SERVER_KEEP_ALIVE => "SERVER_KEEP_ALIVE"
  | .AUTHENTICATION_METHOD => "AUTHENTICATION_METHOD"
  | .AUTHENTICATION_DATA => "AUTHENTICATION_DATA"
  | .REQUEST_PROBLEM_INFORMATION => "REQUEST_PROBLEM_INFORMATION"
  | .WILL_DELAY_INTERVAL => "WILL_DELAY_INTERVAL"
  | .REQUEST_RESPONSE_INFORMATION => "REQUEST_RESPONSE_INFORMATION"
  | .RESPONSE_INFORMATION => "RESPONSE_INFORMATION"
  | .SERVER_REFERENCE => "SERVER_REFERENCE"
  | .REASON_STRING => "REASON_STRING"
  | .RECEIVE_MAXIMUM => "RECEIVE_MAXIMUM"
  | .TOPIC_ALIAS_MAXIMUM => "TOPIC_ALIAS_MAXIMUM"
  | .TOPIC_ALIAS => "TOPIC_ALIAS"
  | .MAXIMUM_QOS => "MAXIMUM_QOS"
  | .RETAIN_AVAILABLE => "RETAIN_AVAILABLE"
  | .USER_PROPERTY => "USER_PROPERTY"
  | .MAXIMUM_PACKET_SIZE => "MAXIMUM_PACKET_SIZE"
  | .WILDCARD_SUBSCRIPTION_AVAILABLE => "WILDCARD_SUBSCRIPTION_AVAILABLE"
  | .SUBSCRIPTION_IDENTIFIERS_AVAILABLE => "SUBSCRIPTION_IDENTIFIERS_AVAILABLE"
  | .SHARED_SUBSCRIPTION_AVAILABLE => "SHARED_SUBSCRIPTION_AVAILABLE"

/-- Printable name for the property type (property::type_name, declared at
properties.h line 184; body in properties.cpp, not under src): looks the
property's code up in the TYPE_NAME table. -/
def Property.type_name (p : Property) : String := typeNameTable p.identifier

/-- Modelled from the spec: the numeric property constructor
property(code, int32_t), declared at properties.h line 109, body in
properties.cpp (not under src). Per spec section 4.1 it is valid only when the
code's kind is an integer kind, storing the value truncated to the kind's byte
width, and otherwise fails with InvalidPropertyKind. -/
def property.mkInt (c : Code) (v : Int) : Except MqttError Property :=
  match kindOf c with
  | .Byte => .ok ⟨c, { PropValue.zero with byte := (v % (2 ^ 8)).toNat }⟩
  | .TwoByteInt => .ok ⟨c, { PropValue.zero with integer2 := (v % (2 ^ 16)).toNat }⟩
  | .FourByteInt => .ok ⟨c, { PropValue.zero with integer4 := (v % (2 ^ 32)).toNat }⟩
  | .VariableByteInt => .ok ⟨c, { PropValue.zero with integer4 := (v % (2 ^ 32)).toNat }⟩
  | _ => .error .InvalidPropertyKind

/-- Modelled from the spec: the string/binary property constructor
property(code, string_ref), declared at properties.h line 122, body in
properties.cpp (not under src). Per spec section 4.1 it is valid only when the
code's kind is BinaryData or Utf8String; it stores an owned copy of the bytes
in the data field, and otherwise fails with InvalidPropertyKind. -/
def property.mkString (c : Code) (s : String) : Except MqttError Property :=
  match kindOf c with
  | .BinaryData => .ok ⟨c, { PropValue.zero with data := ⟨s.length, some s⟩ }⟩
  | .Utf8String => .ok ⟨c, { PropValue.zero with data := ⟨s.length, some s⟩ }⟩
  | _ => .error .InvalidPropertyKind

/-- Modelled from the spec: the string-pair property constructor
property(code, string_ref, string_ref), declared at properties.h line 129,
body in properties.cpp (not under src). Per spec section 4.1 it is valid only
when the code's kind is Utf8StringPair, owning both buffers independently, and
otherwise fails with InvalidPropertyKind. -/
def property.mkPair (c : Code) (n v : String) : Except MqttError Property :=
  match kindOf c with
  | .Utf8StringPair =>
      .ok ⟨c, { PropValue.zero with data := ⟨n.length, some n⟩, value := ⟨v.length, some v⟩ }⟩
  | _ => .error .InvalidPropertyKind

/-- Extraction of the value as an unsigned 8-bit integer: the uint8_t cast of
the union's byte member (template specialization at properties.h
lines 207-210). -/
def getU8 (prop : Property) : Nat := prop.value.byte % (2 ^ 8)

/-- Extraction of the value as an unsigned 16-bit integer: the uint16_t cast of
the union's integer2 member (properties.h lines 216-219). -/
def getU16 (prop : Property) : Nat := prop.value.integer2 % (2 ^ 16)

/-- Extraction of the value as an unsigned 32-bit integer: the uint32_t cast of
the union's integer4 member (properties.h lines 237-240). -/
def getU32 (prop : Property) : Nat := prop.value.integer4 % (2 ^ 32)

/-- Two's-complement reinterpretation of a bit pattern as a signed 16-bit
integer, the int16_t cast of C++. -/
def i16ofBits (n : Nat) : Int :=
  if n % (2 ^ 16) < 2 ^ 15 then (n % (2 ^ 16) : Nat) else (n % (2 ^ 16) : Nat) - 2 ^ 16

/-- Two's-complement reinterpretation of a bit pattern as a signed 32-bit
integer, the int32_t cast of C++. -/
def i32ofBits (n : Nat) : Int :=
  if n % (2 ^ 32) < 2 ^ 31 then (n % (2 ^ 32) : Nat) else (n % (2 ^ 32) : Nat) - 2 ^ 32

/-- Deprecated extraction of the value as a signed 16-bit integer: the int16_t
cast of the union's integer2 member (properties.h lines 227-231). -/
def getI16 (prop : Property) : Int := i16ofBits prop.value.integer2

/-- Deprecated extraction of the value as a signed 32-bit integer: the int32_t
cast of the union's integer4 member (properties.h lines 248-252). -/
def getI32 (prop : Property) : Int := i32ofBits prop.value.integer4

/-- Extraction of the value as a string (properties.h lines 258-263): when the
data pointer is null the empty string is returned, otherwise a string built
from len characters of the buffer. -/
def getString (prop : Property) : String :=
  match prop.value.data.data with
  | none => ""
  | some s => s.take prop.value.data.len

/-- Extraction of the value as a pair of strings (properties.h lines 269-282):
each of the name (data) and value components is the empty string when its
pointer is null, otherwise a string of len characters of its buffer. -/
def getStringPair (prop : Property) : String × String :=
  (match prop.value.data.data with
   | none => ""
   | some s => s.take prop.value.data.len,
   match prop.value.value.data with
   | none => ""
   | some s => s.take prop.value.value.len)

/-- Tags for the type parameter T at which the extraction template can be
instantiated; the tag other stands for every unsupported T, which resolves to
the primary template (properties.h lines 198-201). -/
inductive ExtractType where
  | u8
  | u16
  | i16
  | u32
  | i32
  | str
  | strPair
  | other
deriving DecidableEq

/-- Result of a typed extraction, one constructor per supported T. -/
inductive Value where
  | uint (n : Nat)
  | sint (i : Int)
  | str (s : String)
  | pair (p : String × String)
deriving DecidableEq

/-- Dispatch of the extraction template on the requested T (properties.h
lines 198-282): each declared specialization returns its value and never
fails; any other T resolves to the primary template, which throws bad_cast. -/
def getProp : ExtractType → Property → Except MqttError Value
  | .u8, p => .ok (.uint (getU8 p))
  | .u16, p => .ok (.uint (getU16 p))
  | .i16, p => .ok (.sint (getI16 p))
  | .u32, p => .ok (.uint (getU32 p))
  | .i32, p => .ok (.sint (getI32 p))
  | .str, p => .ok (.str (getString p))
  | .strPair, p => .ok (.pair (getStringPair p))
  | .other, _ => .error .BadCast

/-- MQTT v5 property list (class mqtt::properties, properties.h lines
292-494). The observable content of the underlying C struct MQTTProperties is
its array of properties; the count field always equals the array's length. -/
structure Properties where
  array : List Property
deriving DecidableEq

/-- A freshly default-constructed, empty property list (properties.h line 358:
the default C struct has count 0 and a null array). -/
def Properties.dfltNil : Properties := ⟨[]⟩

/-- Number of properties in the list, the C struct's count field
(properties::size, properties.h line 428). -/
def Properties.size (ps : Properties) : Nat := ps.array.length

/-- Tests whether the list is empty: count equal to zero
(properties::empty, properties.h line 407). -/
def Properties.empty (ps : Properties) : Bool := ps.size == 0

/-- Checked element access (properties::at, properties.h lines 419-423): when
the index is below the count, a copy of the element at that index is returned;
otherwise std::out_of_range is thrown. -/
def Properties.at' (ps : Properties) (i : Nat) : Except MqttError Property :=
  if h : i < ps.size then .ok (ps.array.get ⟨i, h⟩) else .error .IndexOutOfRange

/-- Appends a property to the list (properties::add, properties.h line 453).
Modelled from the spec: the C function MQTTProperties_add it delegates to is in
the Paho C library, not under src; per spec section 4.2 it deep-copies the
argument into the list's own storage and appends it at the end. -/
def Properties.add (ps : Properties) (p : Property) : Properties :=
  ⟨ps.array ++ [p]⟩

/-- Removes every item from the list (properties::clear, properties.h
line 457). Modelled from the spec: the C function MQTTProperties_free it calls
is in the Paho C library, not under src; per spec section 4.2 it releases all
owned buffers and resets the list to empty. -/
def Properties.clear (_ps : Properties) : Properties := ⟨[]⟩

/-- Membership test for a code (properties::contains, properties.h lines
463-467). Modelled from the spec: the C function MQTTProperties_hasProperty is
in the Paho C library, not under src; per spec section 4.2 it is an O(n) scan
for any element with matching code. -/
def Properties.contains (ps : Properties) (propid : Code) : Bool :=
  ps.array.any fun p => decide (p.identifier = propid)

/-- Number of elements with the given code (properties::count, properties.h
lines 478-484). Modelled from the spec: the C function
MQTTProperties_propertyCount is in the Paho C library, not under src; per spec
section 4.2 it counts the elements with matching code. -/
def Properties.count (ps : Properties) (propid : Code) : Nat :=
  (ps.array.filter fun p => decide (p.identifier = propid)).length

/-- Modelled from the spec: the C function MQTTProperties_getPropertyAt used by
the lookup paths is in the Paho C library, not under src; per spec sections 4.2
and the glossary it yields the idx-th (0-based) element with matching code in
list order, and a null pointer (none) when no such occurrence exists. -/
def Properties.getPropertyAt (ps : Properties) (propid : Code) (idx : Nat) :
    Option Property :=
  (ps.array.filter fun p => decide (p.identifier = propid))[idx]?

/-- Modelled from the spec: the member lookup properties::get (declared at
properties.h line 493; body in properties.cpp, not under src). Per spec
section 4.2 it returns the idx-th (0-based) element matching the code in list
order and fails with PropertyNotFound when no such occurrence exists. -/
def Properties.get (ps : Properties) (propid : Code) (idx : Nat) :
    Except MqttError Property :=
  match ps.getPropertyAt propid idx with
  | some p => .ok p
  | none => .error .PropertyNotFound

/-- Free function template get of T over a property list (properties.h lines
507-516): it looks the idx-th occurrence of the code up with
MQTTProperties_getPropertyAt, throws bad_cast when the result pointer is null,
and otherwise extracts the found property as T. -/
def getFrom (t : ExtractType) (props : Properties) (propid : Code) (idx : Nat) :
    Except MqttError Value :=
  match props.getPropertyAt propid idx with
  | none => .error .BadCast
  | some p => getProp t p

/-- Move construction of a property list (properties.h lines 368-370): the
destination takes over the source's C struct and the source struct is zeroed,
leaving it the empty list. Yields (destination, source after the move). -/
def Properties.moveConstruct (other : Properties) : Properties × Properties :=
  (⟨other.array⟩, ⟨[]⟩)

/-- Modelled from the spec: move assignment of a property list (declared at
properties.h line 401; body in properties.cpp, not under src). Per spec
section 4.2 the target takes over the entire backing store and the source
becomes empty. Yields (target after, source after). -/
def Properties.moveAssign (_target source : Properties) : Properties × Properties :=
  (⟨source.array⟩, ⟨[]⟩)

/-- Position of the begin iterator: the start of the C array, position 0
(properties::begin, properties.h line 433). Iterator equality compares the
underlying positions (properties.h lines 349-351). -/
def Properties.beginPos (_ps : Properties) : Nat := 0

/-- Position of the end iterator: the C array offset by the count
(properties::end, properties.h line 443). -/
def Properties.endPos (ps : Properties) : Nat := ps.size

/-- One forward iteration of the list from position i (properties.h lines
308-352 and 433-448): while the iterator differs from end, dereference the
current slot, which materializes a property from the underlying C array entry,
and advance. -/
def Properties.iterFrom (ps : Properties) (i : Nat) : List Property :=
  if h : i < ps.size then ps.array.get ⟨i, h⟩ :: ps.iterFrom (i + 1) else []
termination_by ps.size - i

/-- A complete forward iteration: the sequence of properties produced from
begin to end. -/
def Properties.iterate (ps : Properties) : List Property :=
  ps.iterFrom ps.beginPos

/-- Observable content of the last-will options held by the connection
configuration, an external collaborator of this core (spec section 4.3): only
its identity matters to the claims, via the topic and message it stores
(connect_options.h lines 246-256). -/
structure WillOptions where
  topic : String
  payload : String
deriving DecidableEq

/-- Observable content of the SSL options held by the connection
configuration, an external collaborator of this core (spec section 4.3): only
its identity matters to the claims (connect_options.h line 261). -/
structure SslOptions where
  content : List (String × String)
deriving DecidableEq

/-- Connection options (class mqtt::connect_options, connect_options.h lines
49-572): the scalar fields of the underlying C struct together with the
member fields of the C++ class. The string_ref user name and the binary_ref
password may be unset, modelled as Options. -/
structure ConnectOptions where
  keepAliveInterval : Int
  connectTimeout : Int
  maxInflight : Int
  cleansession : Bool
  cleanstart : Bool
  mqttVersion : Int
  automaticReconnect : Bool
  minRetryInterval : Int
  maxRetryInterval : Int
  socketFwmark : Int
  userName : Option String
  password : Option String
  serverURIs : List String
  will : WillOptions
  ssl : SslOptions
  props : Properties
  httpHeaders : List (String × String)
  httpProxy : String
  httpsProxy : String
deriving DecidableEq

/-- Gets the connect properties (connect_options::get_properties,
connect_options.h line 513): returns the props member. -/
def ConnectOptions.get_properties (c : ConnectOptions) : Properties := c.props

/-- Modelled from the spec: the copying overload of
connect_options::set_properties (declared at connect_options.h line 523; body
in connect_options.cpp, not under src). Per spec section 4.3 the connection
configuration delegates entirely to its property-list field: the call copies
the given list into that field and is a pure passthrough. -/
def ConnectOptions.set_properties (c : ConnectOptions) (ps : Properties) :
    ConnectOptions :=
  { c with props := ps }

/-- Gets the user name (connect_options::get_user_name, connect_options.h
line 225): the stored string when set, the empty string otherwise. -/
def ConnectOptions.get_user_name (c : ConnectOptions) : String :=
  c.userName.getD ""

/-- Gets the password reference (connect_options::get_password,
connect_options.h line 230). -/
def ConnectOptions.get_password (c : ConnectOptions) : Option String :=
  c.password

/-- Gets the password as a string (connect_options::get_password_str,
connect_options.h line 235): the stored binary when set, empty otherwise. -/
def ConnectOptions.get_password_str (c : ConnectOptions) : String :=
  c.password.getD ""

/-- Gets the keep-alive interval in seconds
(connect_options.h lines 209-211). -/
def ConnectOptions.get_keep_alive_interval (c : ConnectOptions) : Int :=
  c.keepAliveInterval

/-- Gets the connect timeout in seconds (connect_options.h lines 218-220). -/
def ConnectOptions.get_connect_timeout (c : ConnectOptions) : Int :=
  c.connectTimeout

/-- Gets the maximum number of in-flight messages
(connect_options.h line 241). -/
def ConnectOptions.get_max_inflight (c : ConnectOptions) : Int :=
  c.maxInflight

/-- Gets the last-will options (connect_options.h line 256). -/
def ConnectOptions.get_will_options (c : ConnectOptions) : WillOptions := c.will

/-- Gets the will topic (connect_options.h line 246). -/
def ConnectOptions.get_will_topic (c : ConnectOptions) : String := c.will.topic

/-- Gets the SSL options (connect_options.h line 261). -/
def ConnectOptions.get_ssl_options (c : ConnectOptions) : SslOptions := c.ssl

/-- Gets the clean-session flag (connect_options.h line 283). -/
def ConnectOptions.is_clean_session (c : ConnectOptions) : Bool :=
  c.cleansession

/-- Gets the clean-start flag (connect_options.h line 289). -/
def ConnectOptions.is_clean_start (c : ConnectOptions) : Bool := c.cleanstart

/-- Gets the server URI collection (connect_options.h line 302). -/
def ConnectOptions.get_servers (c : ConnectOptions) : List String :=
  c.serverURIs

/-- Gets the MQTT version (connect_options.h line 311). -/
def ConnectOptions.get_mqtt_version (c : ConnectOptions) : Int :=
  c.mqttVersion

/-- Gets the automatic-reconnect flag (connect_options.h line 318). -/
def ConnectOptions.get_automatic_reconnect (c : ConnectOptions) : Bool :=
  c.automaticReconnect

/-- Gets the minimum reconnect retry interval (connect_options.h
lines 324-326). -/
def ConnectOptions.get_min_retry_interval (c : ConnectOptions) : Int :=
  c.minRetryInterval

/-- Gets the maximum reconnect retry interval (connect_options.h
lines 332-334). -/
def ConnectOptions.get_max_retry_interval (c : ConnectOptions) : Int :=
  c.maxRetryInterval

/-- Gets the socket fwmark (connect_options.h lines 202-204). -/
def ConnectOptions.get_socket_fwmark (c : ConnectOptions) : Int :=
  c.socketFwmark

/-- Gets the HTTP header collection (connect_options.h line 533). -/
def ConnectOptions.get_http_headers (c : ConnectOptions) :
    List (String × String) :=
  c.httpHeaders

/-- Gets the HTTP proxy (connect_options.h line 554). -/
def ConnectOptions.get_http_proxy (c : ConnectOptions) : String := c.httpProxy

/-- Gets the HTTPS proxy (connect_options.h line 565). -/
def ConnectOptions.get_https_proxy (c : ConnectOptions) : String :=
  c.httpsProxy

theorem Properties.get_error_iff (qs : Properties) (c : Code) (i : Nat) :
    qs.get c i = .error .PropertyNotFound ↔ qs.count c ≤ i := by
  unfold Properties.get Properties.getPropertyAt Properties.count
  rcases h : (qs.array.filter fun p => decide (p.identifier = c))[i]? with _ | p
  · simp only [h]
    simpa using List.getElem?_eq_none_iff.mp h
  · simp only [h]
    rcases List.getElem?_eq_some_iff.mp h with ⟨hlt, -⟩
    constructor
    · intro hcontra
      exact absurd hcontra (by simp)
    · intro hle
      omega

theorem Properties.get_ok_iff (qs : Properties) (c : Code) (i : Nat) (p : Property) :
    qs.get c i = .ok p ↔
      (qs.array.filter fun q => decide (q.identifier = c))[i]? = some p := by
  unfold Properties.get Properties.getPropertyAt
  rcases h : (qs.array.filter fun q => decide (q.identifier = c))[i]? with _ | q
  · simp [h]
  · simp [h]

/-- C1: for a list built by appending properties with codes X, Y, X, Z in that
order (Y and Z different from X), count of X is 2, get X 0 is the first
appended X-coded property, get X 1 the second, and get X 2 fails with
PropertyNotFound; in general get code occurrence returns the occurrence-th
(0-based) element with that code in list order and fails with PropertyNotFound
exactly when no such occurrence exists. -/
theorem claim1_lookup_correct (x y z : Code) (px1 py px2 pz : Property)
    (ps : Properties)
    (hx1 : px1.identifier = x) (hy : py.identifier = y)
    (hx2 : px2.identifier = x) (hz : pz.identifier = z)
    (hyx : y ≠ x) (hzx : z ≠ x)
    (hps : ps = (((Properties.dfltNil.add px1).add py).add px2).add pz) :
    ps.count x = 2 ∧
    ps.get x 0 = .ok px1 ∧
    ps.get x 1 = .ok px2 ∧
    ps.get x 2 = .error .PropertyNotFound ∧
    (∀ (qs : Properties) (c : Code) (i : Nat),
      (qs.get c i = .error .PropertyNotFound ↔ qs.count c ≤ i) ∧
      (∀ p, qs.get c i = .ok p ↔
        (qs.array.filter fun q => decide (q.identifier = c))[i]? = some p)) := by
  subst hps
  refine ⟨?_, ?_, ?_, ?_, ?_⟩
  · simp [Properties.count, Properties.add, Properties.dfltNil, List.filter,
      hx1, hy, hx2, hz, hyx, hzx]
  · simp [Properties.get, Properties.getPropertyAt, Properties.add,
      Properties.dfltNil, List.filter, hx1, hy, hx2, hz, hyx, hzx]
  · simp [Properties.get, Properties.getPropertyAt, Properties.add,
      Properties.dfltNil, List.filter, hx1, hy, hx2, hz, hyx, hzx]
  · simp [Properties.get, Properties.getPropertyAt, Properties.add,
      Properties.dfltNil, List.filter, hx1, hy, hx2, hz, hyx, hzx]
  · intro qs c i
    exact ⟨Properties.get_error_iff qs c i, fun p => Properties.get_ok_iff qs c i p⟩

/-- Witness for C1: the lookup facts at concrete codes USER_PROPERTY,
CONTENT_TYPE, REASON_STRING and concrete properties. -/
theorem claim1_lookup_correct_witness :
    ((((Properties.dfltNil.add ⟨.USER_PROPERTY, PropValue.zero⟩).add
        ⟨.CONTENT_TYPE, PropValue.zero⟩).add
        ⟨.USER_PROPERTY, { PropValue.zero with byte := 1 }⟩).add
        ⟨.REASON_STRING, PropValue.zero⟩).count .USER_PROPERTY = 2 ∧
    ((((Properties.dfltNil.add ⟨.USER_PROPERTY, PropValue.zero⟩).add
        ⟨.CONTENT_TYPE, PropValue.zero⟩).add
        ⟨.USER_PROPERTY, { PropValue.zero with byte := 1 }⟩).add
        ⟨.REASON_STRING, PropValue.zero⟩).get .USER_PROPERTY 0 =
      .ok ⟨.USER_PROPERTY, PropValue.zero⟩ ∧
    ((((Properties.dfltNil.add ⟨.USER_PROPERTY, PropValue.zero⟩).add
        ⟨.CONTENT_TYPE, PropValue.zero⟩).add
        ⟨.USER_PROPERTY, { PropValue.zero with byte := 1 }⟩).add
        ⟨.REASON_STRING, PropValue.zero⟩).get .USER_PROPERTY 1 =
      .ok ⟨.USER_PROPERTY, { PropValue.zero with byte := 1 }⟩ ∧
    ((((Properties.dfltNil.add ⟨.USER_PROPERTY, PropValue.zero⟩).add
        ⟨.CONTENT_TYPE, PropValue.zero⟩).add
        ⟨.USER_PROPERTY, { PropValue.zero with byte := 1 }⟩).add
        ⟨.REASON_STRING, PropValue.zero⟩).get .USER_PROPERTY 2 =
      .error .PropertyNotFound := by
  have h := claim1_lookup_correct .USER_PROPERTY .CONTENT_TYPE .REASON_STRING
    ⟨.USER_PROPERTY, PropValue.zero⟩ ⟨.CONTENT_TYPE, PropValue.zero⟩
    ⟨.USER_PROPERTY, { PropValue.zero with byte := 1 }⟩
    ⟨.REASON_STRING, PropValue.zero⟩ _ rfl rfl rfl rfl
    (by decide) (by decide) rfl
  exact ⟨h.1, h.2.1, h.2.2.1, h.2.2.2.1⟩

/-- C2: for every property list and index i, the checked accessor succeeds and
returns the element at position i exactly when i is below the size, and fails
with IndexOutOfRange exactly when i is at least the size; in particular the
access at size always fails and the access at size minus one on a non-empty
list succeeds. -/
theorem claim2_at_checked (ps : Properties) (i : Nat) :
    ((∃ p, ps.at' i = .ok p ∧ ps.array[i]? = some p) ↔ i < ps.size) ∧
    (ps.at' i = .error .IndexOutOfRange ↔ ps.size ≤ i) ∧
    ps.at' ps.size = .error .IndexOutOfRange ∧
    (ps.empty = false → ∃ p, ps.at' (ps.size - 1) = .ok p) := by
  refine ⟨?_, ?_, ?_, ?_⟩
  · constructor
    · rintro ⟨p, -, hg⟩
      rcases List.getElem?_eq_some_iff.mp hg with ⟨hlt, -⟩
      exact hlt
    · intro h
      exact ⟨ps.array.get ⟨i, h⟩, by simp [Properties.at', h],
        by simp [List.getElem?_eq_getElem h, List.get_eq_getElem]⟩
  · unfold Properties.at'
    by_cases h : i < ps.size
    · simp only [dif_pos h]
      constructor
      · intro hcontra
        exact absurd hcontra (by simp)
      · intro hle
        omega
    · simp only [dif_neg h]
      constructor
      · intro _
        omega
      · intro _
        trivial
  · unfold Properties.at'
    rw [dif_neg (lt_irrefl ps.size)]
  · intro hne
    have hsz : 0 < ps.size := by
      unfold Properties.empty at hne
      have := ne_of_beq_false hne
      omega
    have h : ps.size - 1 < ps.size := by omega
    exact ⟨ps.array.get ⟨ps.size - 1, h⟩, by simp [Properties.at', h]⟩

/-- Witness for C2: checked access on a concrete one-element list succeeds at
index 0 and fails with IndexOutOfRange at index 1, i.e. at the size. -/
theorem claim2_at_checked_witness :
    (∃ p, (⟨[⟨.CONTENT_TYPE, PropValue.zero⟩]⟩ : Properties).at' 0 = .ok p) ∧
    (⟨[⟨.CONTENT_TYPE, PropValue.zero⟩]⟩ : Properties).at' 1 =
      .error .IndexOutOfRange :=
  ⟨(claim2_at_checked ⟨[⟨.CONTENT_TYPE, PropValue.zero⟩]⟩ 0).2.2.2 (by decide),
   ((claim2_at_checked ⟨[⟨.CONTENT_TYPE, PropValue.zero⟩]⟩ 1).2.1).mpr
     (by decide)⟩

/-- C3 counterexample: looking a code up in the empty list through the free
extraction function fails with bad_cast (the BadValueType error), not with
PropertyNotFound, so the absent-property failure is raised with the very same
error kind as an unsupported extraction type and the two are not
distinguishable. -/
theorem claim3_free_get_cex :
    getFrom .u16 Properties.dfltNil .CONTENT_TYPE 0 = .error .BadCast ∧
    getFrom .u16 Properties.dfltNil .CONTENT_TYPE 0 ≠
      .error .PropertyNotFound := by
  constructor
  · rfl
  · intro h
    exact MqttError.noConfusion (Except.error.inj h)

/-- C3 (amended): the free function get of T composes the occurrence lookup
with the typed extraction, but both failure kinds surface as the same error:
when no matching occurrence of the code exists it throws bad_cast
(BadValueType), exactly as an unsupported extraction type does, so a caller
cannot tell an absent property from a bad type request by the error kind. -/
theorem claim3_free_get_compose (t : ExtractType) (ps : Properties) (c : Code)
    (i : Nat) (p : Property) :
    (ps.getPropertyAt c i = none → getFrom t ps c i = .error .BadCast) ∧
    (ps.getPropertyAt c i = some p → getFrom t ps c i = getProp t p) ∧
    getProp .other p = .error .BadCast ∧
    (t ≠ .other → ∃ v, getProp t p = .ok v) := by
  refine ⟨?_, ?_, rfl, ?_⟩
  · intro h
    simp [getFrom, h]
  · intro h
    simp [getFrom, h]
  · intro ht
    cases t with
    | u8 => exact ⟨_, rfl⟩
    | u16 => exact ⟨_, rfl⟩
    | i16 => exact ⟨_, rfl⟩
    | u32 => exact ⟨_, rfl⟩
    | i32 => exact ⟨_, rfl⟩
    | str => exact ⟨_, rfl⟩
    | strPair => exact ⟨_, rfl⟩
    | other => exact absurd rfl ht

/-- Witness for the amended C3: on the empty list the absent-code lookup
yields bad_cast, and the u16 extraction on a concrete property succeeds. -/
theorem claim3_free_get_compose_witness :
    getFrom .u16 Properties.dfltNil .SERVER_KEEP_ALIVE 0 = .error .BadCast ∧
    (∃ v, getProp .u16 ⟨.SERVER_KEEP_ALIVE, PropValue.zero⟩ = .ok v) :=
  ⟨(claim3_free_get_compose .u16 Properties.dfltNil .SERVER_KEEP_ALIVE 0
      ⟨.SERVER_KEEP_ALIVE, PropValue.zero⟩).1 rfl,
   (claim3_free_get_compose .u16 Properties.dfltNil .SERVER_KEEP_ALIVE 0
      ⟨.SERVER_KEEP_ALIVE, PropValue.zero⟩).2.2.2 (by decide)⟩

/-- C4: constructing a property with code CONTENT_TYPE (required kind
Utf8String) and an integer value fails with InvalidPropertyKind; constructing
it with a string value succeeds and type_name on the result is the display
name for CONTENT_TYPE; in general each constructor whose value type does not
match the code's required kind fails with InvalidPropertyKind and never
coerces. -/
theorem claim4_kind_validation (c : Code) (v : Int) (s0 n s : String) :
    property.mkInt .CONTENT_TYPE 5 = .error .InvalidPropertyKind ∧
    (∃ p, property.mkString .CONTENT_TYPE s0 = .ok p ∧
      p.type_name = "CONTENT_TYPE") ∧
    (isIntKind (kindOf c) = false →
      property.mkInt c v = .error .InvalidPropertyKind) ∧
    (kindOf c ≠ .BinaryData → kindOf c ≠ .Utf8String →
      property.mkString c s = .error .InvalidPropertyKind) ∧
    (kindOf c ≠ .Utf8StringPair →
      property.mkPair c n s = .error .InvalidPropertyKind) := by
  refine ⟨rfl, ⟨_, rfl, rfl⟩, ?_, ?_, ?_⟩
  · intro h
    unfold property.mkInt
    cases hk : kindOf c
    case Byte => simp [hk, isIntKind] at h
    case TwoByteInt => simp [hk, isIntKind] at h
    case FourByteInt => simp [hk, isIntKind] at h
    case VariableByteInt => simp [hk, isIntKind] at h
    all_goals rfl
  · intro h1 h2
    unfold property.mkString
    cases hk : kindOf c
    case BinaryData => exact absurd hk h1
    case Utf8String => exact absurd hk h2
    all_goals rfl
  · intro h1
    unfold property.mkPair
    cases hk : kindOf c
    case Utf8StringPair => exact absurd hk h1
    all_goals rfl

/-- Witness for C4: the kind checks at concrete codes. CONTENT_TYPE rejects
integer and pair construction and accepts a string; SERVER_KEEP_ALIVE (kind
TwoByteInt) rejects string construction. -/
theorem claim4_kind_validation_witness :
    property.mkInt .CONTENT_TYPE 5 = .error .InvalidPropertyKind ∧
    (∃ p, property.mkString .CONTENT_TYPE "text" = .ok p ∧
      p.type_name = "CONTENT_TYPE") ∧
    property.mkInt .CONTENT_TYPE 7 = .error .InvalidPropertyKind ∧
    property.mkString .SERVER_KEEP_ALIVE "x" = .error .InvalidPropertyKind ∧
    property.mkPair .CONTENT_TYPE "nm" "vl" = .error .InvalidPropertyKind :=
  ⟨(claim4_kind_validation .CONTENT_TYPE 7 "text" "nm" "vl").1,
   (claim4_kind_validation .CONTENT_TYPE 7 "text" "nm" "vl").2.1,
   (claim4_kind_validation .CONTENT_TYPE 7 "text" "nm" "vl").2.2.1 (by decide),
   (claim4_kind_validation .SERVER_KEEP_ALIVE 7 "text" "nm" "x").2.2.2.1
     (by decide) (by decide),
   (claim4_kind_validation .CONTENT_TYPE 7 "text" "nm" "vl").2.2.2.2
     (by decide)⟩

theorem Properties.iterFrom_eq_drop (ps : Properties) (i : Nat) :
    ps.iterFrom i = ps.array.drop i := by
  rw [Properties.iterFrom]
  by_cases h : i < ps.size
  · rw [dif_pos h, Properties.iterFrom_eq_drop ps (i + 1)]
    simp [List.get_eq_getElem]
  · rw [dif_neg h]
    have hle : ps.array.length ≤ i := Nat.le_of_not_lt h
    exact (List.drop_eq_nil_iff.mpr hle).symm
termination_by ps.size - i

/-- C5: after a property list is moved into another (move construction or move
assignment), the source is exactly a freshly-constructed empty list — size 0,
empty, no code contained, count 0 for every code, iteration producing nothing —
while the destination holds the entire former contents of the source. -/
theorem claim5_move_source_empty (a b : Properties) :
    (a.moveConstruct.2 = Properties.dfltNil ∧
     a.moveConstruct.2.size = 0 ∧
     a.moveConstruct.2.empty = true ∧
     (∀ c, a.moveConstruct.2.contains c = Properties.dfltNil.contains c ∧
       a.moveConstruct.2.count c = Properties.dfltNil.count c) ∧
     a.moveConstruct.2.iterate = [] ∧
     a.moveConstruct.1.array = a.array) ∧
    ((Properties.moveAssign b a).2 = Properties.dfltNil ∧
     (Properties.moveAssign b a).1.array = a.array) := by
  refine ⟨⟨rfl, rfl, rfl, fun c => ⟨rfl, rfl⟩, ?_, rfl⟩, rfl, rfl⟩
  show Properties.iterate ⟨[]⟩ = []
  rw [Properties.iterate, Properties.iterFrom_eq_drop]
  rfl

/-- C6: iterating a property list yields exactly the stored sequence of
properties in list order, so two complete iterations with no mutation in
between yield the same sequence of codes and values; on a list of size 0 the
begin iterator already equals the end iterator and the iteration produces no
element. -/
theorem claim6_iteration_deterministic (ps : Properties) :
    ps.iterate = ps.array ∧
    (∀ qs : Properties, qs.array = ps.array → qs.iterate = ps.iterate) ∧
    (ps.size = 0 → ps.beginPos = ps.endPos ∧ ps.iterate = []) := by
  have hiter : ps.iterate = ps.array := by
    rw [Properties.iterate, Properties.iterFrom_eq_drop]
    rfl
  refine ⟨hiter, ?_, ?_⟩
  · intro qs hqs
    rw [hiter, Properties.iterate, Properties.iterFrom_eq_drop, hqs]
    rfl
  · intro hsz
    refine ⟨?_, ?_⟩
    · simp [Properties.beginPos, Properties.endPos, hsz]
    · rw [hiter]
      unfold Properties.size at hsz
      exact List.length_eq_zero.mp hsz

/-- Witness for C6: iteration over a concrete two-element list yields the
stored sequence, and iteration over the empty list terminates at once. -/
theorem claim6_iteration_deterministic_witness :
    (⟨[⟨.CONTENT_TYPE, PropValue.zero⟩, ⟨.USER_PROPERTY, PropValue.zero⟩]⟩ :
      Properties).iterate =
      [⟨.CONTENT_TYPE, PropValue.zero⟩, ⟨.USER_PROPERTY, PropValue.zero⟩] ∧
    Properties.dfltNil.beginPos = Properties.dfltNil.endPos ∧
    Properties.dfltNil.iterate = [] :=
  ⟨(claim6_iteration_deterministic
      ⟨[⟨.CONTENT_TYPE, PropValue.zero⟩, ⟨.USER_PROPERTY, PropValue.zero⟩]⟩).1,
   (claim6_iteration_deterministic Properties.dfltNil).2.2 rfl⟩

/-- C7: for every property, the deprecated signed extractors are the exact
two's-complement bit reinterpretation of the unsigned extractors: the signed
16-bit extraction equals the int16_t reinterpretation of the unsigned 16-bit
extraction and is congruent to it modulo 2 to the 16, and likewise for 32
bits modulo 2 to the 32. -/
theorem claim7_signed_reinterpret (p : Property) :
    getI16 p = i16ofBits (getU16 p) ∧
    getI32 p = i32ofBits (getU32 p) ∧
    getI16 p ≡ (getU16 p : Int) [ZMOD (2 ^ 16)] ∧
    getI32 p ≡ (getU32 p : Int) [ZMOD (2 ^ 32)] := by
  refine ⟨?_, ?_, ?_, ?_⟩
  · unfold getI16 getU16 i16ofBits
    rw [Nat.mod_mod]
  · unfold getI32 getU32 i32ofBits
    rw [Nat.mod_mod]
  · unfold getI16 getU16 i16ofBits Int.ModEq
    split
    · rfl
    · omega
  · unfold getI32 getU32 i32ofBits Int.ModEq
    split
    · rfl
    · omega

/-- C8: clearing a property list resets it to empty (afterwards empty is true
and size is 0), and clear is idempotent: clearing an already-cleared or
freshly-constructed empty list leaves it empty, observationally equal to a
single clear. -/
theorem claim8_clear_idempotent (ps : Properties) :
    ps.clear.empty = true ∧
    ps.clear.size = 0 ∧
    ps.clear.clear = ps.clear ∧
    Properties.dfltNil.clear = Properties.dfltNil :=
  ⟨rfl, rfl, rfl, rfl⟩

/-- C9: after setting the connect properties through the copying overload, the
stored property list read back equals the given one, and every other field of
the connection options — user name, password, will options, SSL options,
keep-alive and timeout values, retry intervals, server URIs, HTTP headers and
proxies, version, flags — is unchanged by the call. -/
theorem claim9_set_properties_frame (c : ConnectOptions) (ps : Properties) :
    (c.set_properties ps).get_properties = ps ∧
    (c.set_properties ps).get_user_name = c.get_user_name ∧
    (c.set_properties ps).get_password = c.get_password ∧
    (c.set_properties ps).get_password_str = c.get_password_str ∧
    (c.set_properties ps).get_will_options = c.get_will_options ∧
    (c.set_properties ps).get_will_topic = c.get_will_topic ∧
    (c.set_properties ps).get_ssl_options = c.get_ssl_options ∧
    (c.set_properties ps).get_keep_alive_interval = c.get_keep_alive_interval ∧
    (c.set_properties ps).get_connect_timeout = c.get_connect_timeout ∧
    (c.set_properties ps).get_max_inflight = c.get_max_inflight ∧
    (c.set_properties ps).is_clean_session = c.is_clean_session ∧
    (c.set_properties ps).is_clean_start = c.is_clean_start ∧
    (c.set_properties ps).get_mqtt_version = c.get_mqtt_version ∧
    (c.set_properties ps).get_automatic_reconnect = c.get_automatic_reconnect ∧
    (c.set_properties ps).get_min_retry_interval = c.get_min_retry_interval ∧
    (c.set_properties ps).get_max_retry_interval = c.get_max_retry_interval ∧
    (c.set_properties ps).get_socket_fwmark = c.get_socket_fwmark ∧
    (c.set_properties ps).get_servers = c.get_servers ∧
    (c.set_properties ps).get_http_headers = c.get_http_headers ∧
    (c.set_properties ps).get_http_proxy = c.get_http_proxy ∧
    (c.set_properties ps).get_https_proxy = c.get_https_proxy :=
  ⟨rfl, rfl, rfl, rfl, rfl, rfl, rfl, rfl, rfl, rfl, rfl, rfl, rfl, rfl, rfl,
   rfl, rfl, rfl, rfl, rfl, rfl⟩

/-- C10: the string extractors are total in the null-buffer case: when the
underlying C value's data pointer is null, the string extraction returns the
empty string instead of dereferencing it, and the pair extraction returns the
empty string for each component (name or value) whose pointer is null. -/
theorem claim10_null_buffer_safe (p : Property) :
    (p.value.data.data = none → getString p = "") ∧
    (∀ s, p.value.data.data = some s →
      getString p = s.take p.value.data.len) ∧
    (p.value.data.data = none → (getStringPair p).1 = "") ∧
    (p.value.value.data = none → (getStringPair p).2 = "") := by
  refine ⟨?_, ?_, ?_, ?_⟩
  · intro h
    simp [getString, h]
  · intro s h
    simp [getString, h]
  · intro h
    simp [getStringPair, h]
  · intro h
    simp [getStringPair, h]

/-- Witness for C10: extraction of a concrete property whose buffers are null
yields empty strings. -/
theorem claim10_null_buffer_safe_witness :
    getString ⟨.CONTENT_TYPE, PropValue.zero⟩ = "" ∧
    (getStringPair ⟨.USER_PROPERTY, PropValue.zero⟩).1 = "" ∧
    (getStringPair ⟨.USER_PROPERTY, PropValue.zero⟩).2 = "" :=
  ⟨(claim10_null_buffer_safe ⟨.CONTENT_TYPE, PropValue.zero⟩).1 rfl,
   (claim10_null_buffer_safe ⟨.USER_PROPERTY, PropValue.zero⟩).2.2.1 rfl,
   (claim10_null_buffer_safe ⟨.USER_PROPERTY, PropValue.zero⟩).2.2.2 rfl⟩
